import Mathlib

/-!
Verification of the chunk insert-plan cache (`src/chunk_cache.c`).

The development shallowly embeds the data model and operations of the file:

* the plan-cache entry type `chunk_insert_plan_htable_entry` and the build
  context `ChunkCacheQueryCtx`,
* the statement synthesizer `get_copy_table_insert_sql`,
* the cache callbacks `chunk_insert_plan_cache_create_entry`,
  `chunk_insert_plan_cache_update_entry`,
  `chunk_insert_plan_cache_pre_invalidate`,
* chunk resolution: `chunk_tuple_timepoint_filter`, `chunk_tuple_found`,
  `chunk_scan` and the resolution part of `get_chunk_cache_entry`,
* lifecycle: `cache_invalidate` (generic framework, modelled from the spec)
  and `_chunk_cache_fini`.

Machine integers (`int32`, `int64`) are modelled as `Int`; none of the code
paths verified here perform arithmetic that can overflow (the only integer
operations are comparisons and textual rendering), so no explicit modular
reduction is needed.  Opaque compiled-plan handles (`SPIPlanPtr`) are
modelled as `Nat` identifiers handed out by a counter; `SPI_freeplan` is
modelled by appending the handle to a `released` log, so "released exactly
once" is a statement about that log.  External collaborators that are pure
text producers (`quote_identifier`, `internal_time_to_column_literal_sql`,
`copy_table_name`, `fetch_crn_set`) are parameters collected in `Env`.
-/

namespace ChunkCache

/-- `partfunc` of `partitioning_info` (external partitioning service):
schema, name and modulo parameter of the partitioning function. -/
structure PartitioningFunc where
  schema : String
  name : String
  modulos : Int
  deriving Repr, DecidableEq

/-- Partitioning metadata of an epoch: the partitioning function and the
partitioning column name. -/
structure PartitioningInfo where
  partfunc : PartitioningFunc
  column : String
  deriving Repr, DecidableEq

/-- `epoch_and_partitions_set`: the fields read by this file — the number of
partitions in the epoch and the partitioning metadata. -/
structure EpochAndPartitionsSet where
  num_partitions : Int
  partitioning : PartitioningInfo
  deriving Repr, DecidableEq

/-- `Partition`: keyspace slice of the epoch; the synthesizer reads the
keyspace range. -/
structure Partition where
  id : Int
  keyspace_start : Int
  keyspace_end : Int
  deriving Repr, DecidableEq

/-- `hypertable_cache_entry`: the fields read by this file — hypertable id,
time column name and time column type. -/
structure HypertableCacheEntry where
  id : Int
  time_column_name : String
  time_column_type : String
  deriving Repr, DecidableEq

/-- `crn_row`: one destination table (schema-qualified) of the routing
lookup. -/
structure CrnRow where
  schema_name : String
  table_name : String
  deriving Repr, DecidableEq

/-- `ChunkCacheQueryCtx` (without the embedded generic `CacheQueryCtx`
header): the build context handed to the cache callbacks. -/
structure ChunkCacheQueryCtx where
  hci : HypertableCacheEntry
  pe_entry : EpochAndPartitionsSet
  part : Partition
  chunk_id : Int
  chunk_start_time : Int
  chunk_end_time : Int
  deriving Repr, DecidableEq

/-- Modelled from the spec: `OPEN_START_TIME`, the sentinel for an open
(unbounded below, −∞) start bound, defined in a header not under `src/`;
the minimum `int64` value. -/
def OPEN_START_TIME : Int := -(2 ^ 63)

/-- Modelled from the spec: `OPEN_END_TIME`, the sentinel for an open
(unbounded above, +∞) end bound, defined in a header not under `src/`;
the maximum `int64` value. -/
def OPEN_END_TIME : Int := 2 ^ 63 - 1

/-- External text-producing collaborators of the synthesizer and the plan
compiler's success predicate, as parameters.  `prepare_ok` tells whether
`prepare_plan` succeeds on a given statement text (the spec's
`CompileError` is its failure). -/
structure Env where
  quote_identifier : String → String
  internal_time_to_column_literal_sql : Int → String → String
  copy_table_name : Int → String
  fetch_crn_set : Int → List CrnRow
  prepare_ok : String → Bool

/-! ### Statement synthesizer (`get_copy_table_insert_sql`) -/

/-- The partition-range clause appended when `num_partitions > 1`
(format `" AND (%s.%s(%s::TEXT, %d) BETWEEN %d AND %d)"`). -/
def partition_range_clause (env : Env) (ctx : ChunkCacheQueryCtx) : String :=
  " AND (" ++ env.quote_identifier ctx.pe_entry.partitioning.partfunc.schema
    ++ "." ++ env.quote_identifier ctx.pe_entry.partitioning.partfunc.name
    ++ "(" ++ env.quote_identifier ctx.pe_entry.partitioning.column
    ++ "::TEXT, " ++ toString ctx.pe_entry.partitioning.partfunc.modulos
    ++ ") BETWEEN " ++ toString ctx.part.keyspace_start
    ++ " AND " ++ toString ctx.part.keyspace_end ++ ")"

/-- The lower-bound time clause appended when the chunk start time is not
open (format `" AND (%1$s >= %2$s) "`). -/
def lower_bound_clause (env : Env) (ctx : ChunkCacheQueryCtx) : String :=
  " AND (" ++ env.quote_identifier ctx.hci.time_column_name
    ++ " >= "
    ++ env.internal_time_to_column_literal_sql ctx.chunk_start_time
         ctx.hci.time_column_type
    ++ ") "

/-- The upper-bound time clause appended when the chunk end time is not
open (format `" AND (%1$s <= %2$s) "`). -/
def upper_bound_clause (env : Env) (ctx : ChunkCacheQueryCtx) : String :=
  " AND (" ++ env.quote_identifier ctx.hci.time_column_name
    ++ " <= "
    ++ env.internal_time_to_column_literal_sql ctx.chunk_end_time
         ctx.hci.time_column_type
    ++ ") "

/-- The WHERE predicate built by `get_copy_table_insert_sql` lines 289-317:
a sequence of appends to the `where_clause` string buffer. -/
def where_clause (env : Env) (ctx : ChunkCacheQueryCtx) : String :=
  let w := "WHERE TRUE"
  let w := if ctx.pe_entry.num_partitions > 1
           then w ++ partition_range_clause env ctx else w
  let w := if ctx.chunk_start_time ≠ OPEN_START_TIME
           then w ++ lower_bound_clause env ctx else w
  let w := if ctx.chunk_end_time ≠ OPEN_END_TIME
           then w ++ upper_bound_clause env ctx else w
  w

/-- One insertion step of the synthesized statement (loop body at lines
319-330, format `"i_%d AS (INSERT INTO %s.%s SELECT * FROM selected)"`);
`i` is the 1-based position of the destination table. -/
def insert_step (env : Env) (i : Nat) (tab : CrnRow) : String :=
  "i_" ++ toString i ++ " AS (INSERT INTO "
    ++ env.quote_identifier tab.schema_name
    ++ "." ++ env.quote_identifier tab.table_name
    ++ " SELECT * FROM selected)"

/-- The `insert_clauses` buffer: the loop over `crn->tables` with counter
`i` incremented before each append (so the first step is `i_1`).  The
steps are appended with no separator, exactly as in the source. -/
def insert_clauses_from (env : Env) (i : Nat) : List CrnRow → String
  | [] => ""
  | tab :: rest => insert_step env (i + 1) tab ++ insert_clauses_from env (i + 1) rest

/-- Whitespace run coming from the C line continuations inside the
`sql_insert` template (six tabs and a space). -/
def sql_ws : String := "\t\t\t\t\t\t "

/-- `get_copy_table_insert_sql`: the full synthesized movement statement,
instantiating the template
`"\ WITH selected AS ( DELETE FROM ONLY %1$s %2$s RETURNING * ), \ %3$s \ SELECT 1"`
with the copy-table name, the WHERE predicate and the insertion steps. -/
def get_copy_table_insert_sql (env : Env) (ctx : ChunkCacheQueryCtx) : String :=
  let insert_clauses := insert_clauses_from env 0 (env.fetch_crn_set ctx.chunk_id)
  sql_ws ++ "WITH selected AS ( DELETE FROM ONLY "
    ++ env.copy_table_name ctx.hci.id ++ " "
    ++ where_clause env ctx
    ++ " RETURNING * ), " ++ sql_ws
    ++ insert_clauses ++ " " ++ sql_ws
    ++ "SELECT 1"

/-! ### Spec-side descriptions of the synthesized statement

These definitions follow the wording of the specification (§4.2) and are
compared with the source-translated builder above. -/

/-- Spec §4.2: the predicate is a list of clauses "in order, each clause
ANDed": the always-true base clause; when the epoch's partition count is
greater than 1 a partitioning-function range clause; when the start is not
open a `column ≥ literal` clause; when the end is not open a
`column ≤ literal` clause. -/
def spec_where_clauses (env : Env) (ctx : ChunkCacheQueryCtx) : List String :=
  ["WHERE TRUE"]
    ++ (if ctx.pe_entry.num_partitions > 1
        then [partition_range_clause env ctx] else [])
    ++ (if ctx.chunk_start_time ≠ OPEN_START_TIME
        then [lower_bound_clause env ctx] else [])
    ++ (if ctx.chunk_end_time ≠ OPEN_END_TIME
        then [upper_bound_clause env ctx] else [])

/-- Spec §4.2: one insertion step per destination table, enumerated in the
order the routing lookup returns them (1-based position). -/
def spec_insert_steps (env : Env) (tables : List CrnRow) : List String :=
  tables.enum.map fun p => insert_step env (p.1 + 1) p.2

/-! ### Plan cache -/

/-- `chunk_insert_plan_htable_entry`: one cached entry — chunk id, the
bounds the plan was compiled for, and the compiled plan handle
(`SPIPlanPtr`, modelled as a `Nat` identifier). -/
structure ChunkInsertPlanHtableEntry where
  chunk_id : Int
  start_time : Int
  end_time : Int
  move_from_copyt_plan : Nat
  deriving Repr, DecidableEq

/-- The state of the plan cache: the hashtable contents (an association
list keyed by `chunk_id`, insertion order), the counter handing out fresh
compiled-plan handles, the log of handles passed to `SPI_freeplan`, and
whether the `post_invalidate_hook` (reinitialization callback, set to
`cache_init` in the static initializer) is still installed. -/
structure CacheState where
  entries : List ChunkInsertPlanHtableEntry
  next_plan : Nat
  released : List Nat
  post_invalidate_hook : Bool
  deriving Repr, DecidableEq

/-- `chunk_insert_plan_cache_create_entry` (lines 94-108): synthesize the
statement, fill the fresh entry's fields, compile the plan.  Compilation
failure (`prepare_plan` raising) aborts with no entry produced; effects
performed before the failure persist in the returned state. -/
def chunk_insert_plan_cache_create_entry (env : Env) (st : CacheState)
    (ctx : ChunkCacheQueryCtx) :
    CacheState × Except Unit ChunkInsertPlanHtableEntry :=
  let insert_sql := get_copy_table_insert_sql env ctx
  if env.prepare_ok insert_sql then
    ({ st with next_plan := st.next_plan + 1 },
     .ok { chunk_id := ctx.chunk_id
           start_time := ctx.chunk_start_time
           end_time := ctx.chunk_end_time
           move_from_copyt_plan := st.next_plan })
  else
    (st, .error ())

/-- `chunk_insert_plan_cache_update_entry` (lines 110-126): if the stored
bounds equal the requested bounds, return the entry unchanged; otherwise
synthesize the statement, free the old plan (`SPI_freeplan`), compile the
new plan and store its handle in the entry.  `pe` is the hashtable's own
entry for the chunk id, so the write through the entry pointer is
modelled as keyed in-place replacement in `entries`.  As in the source,
the entry's `start_time`/`end_time` fields are not written.  If
`prepare_plan` fails, the free of the old plan has already happened and
persists, and the handle assignment never runs. -/
def chunk_insert_plan_cache_update_entry (env : Env) (st : CacheState)
    (ctx : ChunkCacheQueryCtx) (pe : ChunkInsertPlanHtableEntry) :
    CacheState × Except Unit ChunkInsertPlanHtableEntry :=
  if pe.start_time = ctx.chunk_start_time ∧ pe.end_time = ctx.chunk_end_time then
    (st, .ok pe)
  else
    let insert_sql := get_copy_table_insert_sql env ctx
    let st := { st with released := st.released ++ [pe.move_from_copyt_plan] }
    if env.prepare_ok insert_sql then
      let pe' := { pe with move_from_copyt_plan := st.next_plan }
      ({ st with
          next_plan := st.next_plan + 1
          entries := st.entries.map fun e =>
            if e.chunk_id = pe.chunk_id then pe' else e },
       .ok pe')
    else
      (st, .error ())

/-- Modelled from the spec: the generic cache framework's fetch
(`cache_fetch` in `cache.c`, not under `src/`), per spec §4.3
`get_or_build`: "On key miss: synthesize statement …, compile it, store
entry {chunk_id, chunk_start, chunk_end, plan}, return plan.  On key hit:"
run the staleness check / update; a failed build stores nothing, a
successful update is written back in place. -/
def cache_fetch (env : Env) (st : CacheState) (ctx : ChunkCacheQueryCtx) :
    CacheState × Except Unit ChunkInsertPlanHtableEntry :=
  match st.entries.find? (fun e => e.chunk_id = ctx.chunk_id) with
  | some pe => chunk_insert_plan_cache_update_entry env st ctx pe
  | none =>
    match chunk_insert_plan_cache_create_entry env st ctx with
    | (st', .ok pe) => ({ st' with entries := st'.entries ++ [pe] }, .ok pe)
    | (st', .error e) => (st', .error e)

/-! ### Invalidation and shutdown -/

/-- Observable lifecycle events of invalidation: releasing one compiled
plan, discarding the hashtable storage, reinitializing empty storage
(the `post_invalidate_hook`, i.e. `cache_init`). -/
inductive CacheEvent
  | release (plan : Nat)
  | discard
  | reinit
  deriving Repr, DecidableEq

/-- `chunk_insert_plan_cache_pre_invalidate` (lines 80-92): walk every
entry of the hashtable and `SPI_freeplan` its compiled plan.  Returns the
release events in entry order. -/
def chunk_insert_plan_cache_pre_invalidate (st : CacheState) :
    CacheState × List CacheEvent :=
  ({ st with released :=
      st.released ++ st.entries.map (fun e => e.move_from_copyt_plan) },
   st.entries.map (fun e => CacheEvent.release e.move_from_copyt_plan))

/-- Modelled from the spec: the generic `cache_invalidate` (`cache.c`, not
under `src/`): run the `pre_invalidate_hook` (which releases every
compiled plan), then destroy the hashtable storage, then — when the
`post_invalidate_hook` is still installed — reinitialize empty backing
storage (`cache_init`). -/
def cache_invalidate (st : CacheState) : CacheState × List CacheEvent :=
  let (st₁, evs) := chunk_insert_plan_cache_pre_invalidate st
  ({ st₁ with entries := [] },
   evs ++ [CacheEvent.discard]
       ++ (if st.post_invalidate_hook then [CacheEvent.reinit] else []))

/-- `invalidate_chunk_cache_callback` (lines 128-133): the externally
triggered bulk invalidation — just `cache_invalidate` on the cache. -/
def invalidate_chunk_cache_callback (st : CacheState) :
    CacheState × List CacheEvent :=
  cache_invalidate st

/-- `_chunk_cache_fini` (lines 351-356): clear the
`post_invalidate_hook`, then invalidate.  Because the hook is cleared
first, the invalidation performs no reinitialization of the freed
storage. -/
def chunk_cache_fini (st : CacheState) : CacheState × List CacheEvent :=
  let st := { st with post_invalidate_hook := false }
  cache_invalidate st

/-! ### Chunk directory: scan and resolution -/

/-- One persisted chunk record as seen by the scan: the columns read from
the tuple.  A `none` bound is a NULL (open) bound. -/
structure ChunkTuple where
  id : Int
  partition_id : Int
  start_time : Option Int
  end_time : Option Int
  deriving Repr, DecidableEq

/-- `chunk_row`: the materialized chunk returned by resolution. -/
structure ChunkRow where
  id : Int
  partition_id : Int
  start_time : Int
  end_time : Int
  deriving Repr, DecidableEq

/-- `chunk_row_create` (lines 152-164). -/
def chunk_row_create (id partition_id starttime endtime : Int) : ChunkRow :=
  { id := id, partition_id := partition_id
    start_time := starttime, end_time := endtime }

/-- `ChunkScanCtx` (lines 177-184), plus a ghost counter
`rows_materialized` counting the calls to `chunk_row_create` made by
`chunk_tuple_found` (it is read by no operation). -/
structure ChunkScanCtx where
  chunk : Option ChunkRow
  partition_id : Int
  starttime : Int
  endtime : Int
  timepoint : Int
  rows_materialized : Nat
  deriving Repr, DecidableEq

/-- `chunk_tuple_timepoint_filter` (lines 186-203): store the tuple's
bounds into the scan context, a NULL bound coerced to the open sentinel,
and accept the tuple when `(starttime_is_null || timepoint >= starttime)
&& (endtime_is_null || timepoint <= endtime)`. -/
def chunk_tuple_timepoint_filter (ctx : ChunkScanCtx) (t : ChunkTuple) :
    ChunkScanCtx × Bool :=
  let starttime := match t.start_time with
                   | none => OPEN_START_TIME
                   | some v => v
  let endtime := match t.end_time with
                 | none => OPEN_END_TIME
                 | some v => v
  let ctx := { ctx with starttime := starttime, endtime := endtime }
  (ctx, (t.start_time.isNone || decide (ctx.timepoint ≥ starttime)) &&
        (t.end_time.isNone || decide (ctx.timepoint ≤ endtime)))

/-- `chunk_tuple_found` (lines 205-216): materialize the chunk row from
the tuple's id and the bounds stashed by the filter, and return `false`
to end the scan. -/
def chunk_tuple_found (ctx : ChunkScanCtx) (t : ChunkTuple) :
    ChunkScanCtx × Bool :=
  ({ ctx with
      chunk := some (chunk_row_create t.id ctx.partition_id
                       ctx.starttime ctx.endtime)
      rows_materialized := ctx.rows_materialized + 1 },
   false)

/-- Modelled from the spec: the row-storage scan primitive
(`scanner_scan` in `scanner.c`, not under `src/`): visit the key-matching
tuples in index order; for each one passing `filter` call `tuple_found`,
and end the scan as soon as `tuple_found` returns `false`. -/
def scanner_scan_loop
    (filter : ChunkScanCtx → ChunkTuple → ChunkScanCtx × Bool)
    (tuple_found : ChunkScanCtx → ChunkTuple → ChunkScanCtx × Bool)
    (ctx : ChunkScanCtx) : List ChunkTuple → ChunkScanCtx
  | [] => ctx
  | t :: rest =>
    let r₁ := filter ctx t
    if r₁.2 then
      let r₂ := tuple_found r₁.1 t
      if r₂.2 then scanner_scan_loop filter tuple_found r₂.1 rest else r₂.1
    else scanner_scan_loop filter tuple_found r₁.1 rest

/-- `chunk_scan` (lines 218-253) as a scan-context transformer: the scan
key restricts the forward index scan to the tuples whose
`CHUNK_IDX_COL_PARTITION_ID` column equals `partition_id` (the records
list is given in partition-time index order); the filter and tuple-found
callbacks are the two functions above.  `tuplock` requests a row share
lock on the found tuple, which has no effect observable in this model. -/
def chunk_scan_ctx (records : List ChunkTuple)
    (partition_id timepoint : Int) (tuplock : Bool) : ChunkScanCtx :=
  scanner_scan_loop chunk_tuple_timepoint_filter chunk_tuple_found
    { chunk := none, partition_id := partition_id, starttime := 0
      endtime := 0, timepoint := timepoint, rows_materialized := 0 }
    (records.filter fun t => t.partition_id = partition_id)

/-- `chunk_scan`'s return value: the materialized chunk, if any. -/
def chunk_scan (records : List ChunkTuple)
    (partition_id timepoint : Int) (tuplock : Bool) : Option ChunkRow :=
  (chunk_scan_ctx records partition_id timepoint tuplock).chunk

/-- The chunk-resolution part of `get_chunk_cache_entry` (lines 263-268):
scan for the chunk owning the timepoint, and create a new chunk record if
none is found.  `chunk_row_insert_new` lives in `metadata_queries.c`,
which is not under `src/`; it is modelled from the spec as the parameter
`new_chunk`, required (in the theorems) to produce "a new chunk record
covering at least `timepoint`" in the given partition. -/
def resolve_chunk (new_chunk : Int → Int → ChunkRow)
    (records : List ChunkTuple) (partition_id timepoint : Int)
    (lock : Bool) : ChunkRow :=
  match chunk_scan records partition_id timepoint lock with
  | some c => c
  | none => new_chunk partition_id timepoint

/-- Spec §4.1: the tuple's `[start,end]` bounds contain the timepoint,
"null/open bound treated as −∞/+∞". -/
def tuple_contains (t : ChunkTuple) (timepoint : Int) : Bool :=
  (match t.start_time with
   | none => true
   | some s => decide (s ≤ timepoint)) &&
  (match t.end_time with
   | none => true
   | some e => decide (timepoint ≤ e))

/-! ### Helper lemmas and concrete fixtures -/

theorem string_join_cons (s : String) (l : List String) :
    String.join (s :: l) = s ++ String.join l := by
  apply String.ext
  simp [String.join_eq, String.data_append]

theorem string_join_nil : String.join ([] : List String) = "" := rfl

/-- Fixture: an environment whose external text producers are simple
stand-ins and whose plan compilation always succeeds. -/
def sampleEnv : Env where
  quote_identifier := fun s => s
  internal_time_to_column_literal_sql := fun t _ => toString t
  copy_table_name := fun i => "_copy_" ++ toString i
  fetch_crn_set := fun _ => [{ schema_name := "public", table_name := "tab_a" },
                             { schema_name := "public", table_name := "tab_b" }]
  prepare_ok := fun _ => true

/-- Fixture: like `sampleEnv` but plan compilation always fails. -/
def failEnv : Env := { sampleEnv with prepare_ok := fun _ => false }

/-- Fixture: like `sampleEnv` but the routing lookup returns no
destination tables. -/
def emptyCrnEnv : Env := { sampleEnv with fetch_crn_set := fun _ => [] }

/-- Fixture: a build context for chunk 1 with the given bounds. -/
def sampleCtx (cs ce : Int) : ChunkCacheQueryCtx where
  hci := { id := 7, time_column_name := "time", time_column_type := "BIGINT" }
  pe_entry := { num_partitions := 2
                partitioning := { partfunc := { schema := "public", name := "hashfn",
                                                modulos := 32768 }
                                  column := "device" } }
  part := { id := 3, keyspace_start := 0, keyspace_end := 16383 }
  chunk_id := 1
  chunk_start_time := cs
  chunk_end_time := ce

/-- Fixture: a cache entry for chunk 1 compiled for bounds `(0, 10)` with
plan handle 5. -/
def sampleEntry : ChunkInsertPlanHtableEntry where
  chunk_id := 1
  start_time := 0
  end_time := 10
  move_from_copyt_plan := 5

/-- Fixture: a cache holding exactly `sampleEntry`, plan counter 6,
nothing released, reinitialization hook installed. -/
def sampleState : CacheState where
  entries := [sampleEntry]
  next_plan := 6
  released := []
  post_invalidate_hook := true

/-! ### C2: hit with unchanged bounds -/

/-- C2: for every cached plan-cache entry, a fetch with the same chunk id
and the same start/end bounds as stored returns the stored compiled plan
handle unchanged, with no recompilation and no modification of the entry;
repeated fetches with unchanged bounds are idempotent and yield the
identical handle. -/
theorem cache_fetch_hit_same_bounds (env : Env) (st : CacheState)
    (ctx : ChunkCacheQueryCtx) (pe : ChunkInsertPlanHtableEntry)
    (hfind : st.entries.find? (fun e => e.chunk_id = ctx.chunk_id) = some pe)
    (hs : pe.start_time = ctx.chunk_start_time)
    (he : pe.end_time = ctx.chunk_end_time) :
    cache_fetch env st ctx = (st, .ok pe) ∧
    cache_fetch env (cache_fetch env st ctx).1 ctx = (st, .ok pe) := by
  have h1 : cache_fetch env st ctx = (st, Except.ok pe) := by
    unfold cache_fetch
    simp only [hfind]
    unfold chunk_insert_plan_cache_update_entry
    rw [if_pos ⟨hs, he⟩]
  exact ⟨h1, by rw [h1]; exact h1⟩

/-- Witness for C2 at the concrete fixture: chunk 1 cached with bounds
`(0, 10)`, fetched with bounds `(0, 10)`. -/
theorem cache_fetch_hit_same_bounds_witness :
    cache_fetch sampleEnv sampleState (sampleCtx 0 10) =
      (sampleState, .ok sampleEntry) ∧
    cache_fetch sampleEnv (cache_fetch sampleEnv sampleState (sampleCtx 0 10)).1
        (sampleCtx 0 10) = (sampleState, .ok sampleEntry) :=
  cache_fetch_hit_same_bounds sampleEnv sampleState (sampleCtx 0 10) sampleEntry
    (by decide) (by decide) (by decide)

/-! ### C1: hit with changed bounds -/

/-- C1 (failure of the claim on the code): over an entry cached for chunk
1 with bounds `(0, 10)` and plan handle 5, a fetch with bounds `(5, 15)`
does release the old handle exactly once and does compile and return a
new plan (handle 6), but the entry's stored bounds remain `(0, 10)`: the
source's update callback never writes `start_time`/`end_time`, so the
stored bounds are not updated to `(5, 15)` as the claim states. -/
theorem cache_fetch_changed_bounds_keeps_stale_bounds :
    (cache_fetch sampleEnv sampleState (sampleCtx 5 15)).1.released = [5] ∧
    (cache_fetch sampleEnv sampleState (sampleCtx 5 15)).2 =
      .ok { chunk_id := 1, start_time := 0, end_time := 10,
            move_from_copyt_plan := 6 } ∧
    (cache_fetch sampleEnv sampleState (sampleCtx 5 15)).1.entries =
      [{ chunk_id := 1, start_time := 0, end_time := 10,
         move_from_copyt_plan := 6 }] ∧
    (cache_fetch sampleEnv sampleState (sampleCtx 5 15)).1.entries.map
        (fun e => (e.start_time, e.end_time)) ≠ [((5 : Int), (15 : Int))] :=
  ⟨rfl, rfl, rfl, by decide⟩

/-! ### C3: WHERE predicate structure -/

/-- C3: the synthesized WHERE predicate is the concatenation, in order, of
the always-true base clause, the partitioning-function range clause over
`[keyspace_start, keyspace_end]` present exactly when the epoch's
partition count is greater than 1, the `time ≥ start` clause present
exactly when the start is not open, and the `time ≤ end` clause present
exactly when the end is not open (spec-side clause list
`spec_where_clauses`); in particular for a chunk with both bounds open
the predicate is the base clause followed only by the partition clause
when the partition count exceeds 1. -/
theorem where_clause_structure (env : Env) (ctx : ChunkCacheQueryCtx) :
    where_clause env ctx = String.join (spec_where_clauses env ctx) ∧
    (ctx.chunk_start_time = OPEN_START_TIME → ctx.chunk_end_time = OPEN_END_TIME →
      where_clause env ctx =
        "WHERE TRUE" ++
          (if ctx.pe_entry.num_partitions > 1
           then partition_range_clause env ctx else "")) := by
  constructor
  · unfold where_clause spec_where_clauses
    by_cases h1 : ctx.pe_entry.num_partitions > 1 <;>
      by_cases h2 : ctx.chunk_start_time = OPEN_START_TIME <;>
        by_cases h3 : ctx.chunk_end_time = OPEN_END_TIME <;>
          simp [h1, h2, h3, string_join_cons, string_join_nil,
                String.append_empty, String.append_assoc]
  · intro h2 h3
    unfold where_clause
    by_cases h1 : ctx.pe_entry.num_partitions > 1 <;>
      simp [h1, h2, h3, String.append_empty]

/-- Witness for C3 is not needed (no hypothesis), but the open-open case
is exercised at a concrete context: chunk 1 with both bounds open yields
the base clause followed by the partition clause only. -/
theorem where_clause_structure_open_open :
    where_clause sampleEnv (sampleCtx OPEN_START_TIME OPEN_END_TIME) =
      "WHERE TRUE AND (public.hashfn(device::TEXT, 32768) BETWEEN 0 AND 16383)" := by
  decide

/-! ### C4, C5: insertion steps -/

theorem insert_clauses_from_eq (env : Env) (i : Nat) (ts : List CrnRow) :
    insert_clauses_from env i ts =
      String.join ((List.enumFrom i ts).map fun p => insert_step env (p.1 + 1) p.2) := by
  induction ts generalizing i with
  | nil => rfl
  | cons t rest ih =>
    simp only [insert_clauses_from, List.enumFrom, List.map_cons,
               string_join_cons, ih]

/-- C4: the synthesized statement contains exactly one insertion step per
destination table returned by the routing lookup, enumerated in the order
the lookup returns them (the i-th step is `i_(i+1) AS (INSERT INTO
schema.table SELECT * FROM selected)` for the i-th table); every step
selects from the staging result set `selected`, which is the staging
delete step's `RETURNING *` set in the synthesized statement. -/
theorem insert_steps_per_destination (env : Env) (ctx : ChunkCacheQueryCtx) :
    (spec_insert_steps env (env.fetch_crn_set ctx.chunk_id)).length =
      (env.fetch_crn_set ctx.chunk_id).length ∧
    (∀ i : Nat, (spec_insert_steps env (env.fetch_crn_set ctx.chunk_id))[i]? =
      ((env.fetch_crn_set ctx.chunk_id)[i]?).map
        fun tab => insert_step env (i + 1) tab) ∧
    (∀ s ∈ spec_insert_steps env (env.fetch_crn_set ctx.chunk_id),
      ∃ pre, s = pre ++ " SELECT * FROM selected)") ∧
    get_copy_table_insert_sql env ctx =
      sql_ws ++ "WITH selected AS ( DELETE FROM ONLY "
        ++ env.copy_table_name ctx.hci.id ++ " " ++ where_clause env ctx
        ++ " RETURNING * ), " ++ sql_ws
        ++ String.join (spec_insert_steps env (env.fetch_crn_set ctx.chunk_id))
        ++ " " ++ sql_ws ++ "SELECT 1" := by
  refine ⟨?_, ?_, ?_, ?_⟩
  · simp [spec_insert_steps]
  · intro i
    simp [spec_insert_steps, List.getElem?_enum, Option.map_map]
    rfl
  · intro s hs
    simp only [spec_insert_steps, List.mem_map] at hs
    obtain ⟨p, _, rfl⟩ := hs
    exact ⟨"i_" ++ toString (p.1 + 1) ++ " AS (INSERT INTO "
            ++ env.quote_identifier p.2.schema_name ++ "."
            ++ env.quote_identifier p.2.table_name, rfl⟩
  · unfold get_copy_table_insert_sql spec_insert_steps
    rw [List.enum_eq_enumFrom, insert_clauses_from_eq]

/-- C5: for a chunk whose routing lookup returns no destination tables,
the synthesized statement still contains the staging step deleting the
matching rows from the copy table and returning them, and contains zero
insertion steps. -/
theorem empty_destination_statement (env : Env) (ctx : ChunkCacheQueryCtx)
    (h : env.fetch_crn_set ctx.chunk_id = []) :
    get_copy_table_insert_sql env ctx =
      sql_ws ++ "WITH selected AS ( DELETE FROM ONLY "
        ++ env.copy_table_name ctx.hci.id ++ " " ++ where_clause env ctx
        ++ " RETURNING * ), " ++ sql_ws ++ " " ++ sql_ws ++ "SELECT 1" ∧
    spec_insert_steps env (env.fetch_crn_set ctx.chunk_id) = [] := by
  constructor
  · unfold get_copy_table_insert_sql
    rw [h]
    simp only [insert_clauses_from, String.append_empty]
  · rw [h]; rfl

/-- Witness for C5: the concrete environment with an empty routing
lookup, at the context for chunk 1 with bounds `(0, 10)`. -/
theorem empty_destination_statement_witness :
    get_copy_table_insert_sql emptyCrnEnv (sampleCtx 0 10) =
      sql_ws ++ "WITH selected AS ( DELETE FROM ONLY "
        ++ emptyCrnEnv.copy_table_name (sampleCtx 0 10).hci.id ++ " "
        ++ where_clause emptyCrnEnv (sampleCtx 0 10)
        ++ " RETURNING * ), " ++ sql_ws ++ " " ++ sql_ws ++ "SELECT 1" ∧
    spec_insert_steps emptyCrnEnv
        (emptyCrnEnv.fetch_crn_set (sampleCtx 0 10).chunk_id) = [] :=
  empty_destination_statement emptyCrnEnv (sampleCtx 0 10) rfl

/-! ### C6, C10: chunk scan and resolution -/

/-- The start bound the filter stashes in the scan context: a NULL start
coerced to the open sentinel. -/
def coerced_start (t : ChunkTuple) : Int :=
  match t.start_time with
  | none => OPEN_START_TIME
  | some v => v

/-- The end bound the filter stashes in the scan context: a NULL end
coerced to the open sentinel. -/
def coerced_end (t : ChunkTuple) : Int :=
  match t.end_time with
  | none => OPEN_END_TIME
  | some v => v

theorem filter_characterization (ctx : ChunkScanCtx) (t : ChunkTuple) :
    chunk_tuple_timepoint_filter ctx t =
      ({ ctx with starttime := coerced_start t, endtime := coerced_end t },
       tuple_contains t ctx.timepoint) := by
  obtain ⟨i, p, s, e⟩ := t
  unfold chunk_tuple_timepoint_filter tuple_contains coerced_start coerced_end
  cases s <;> cases e <;> simp [ge_iff_le]

theorem scan_loop_characterization (l : List ChunkTuple) (ctx : ChunkScanCtx) :
    (scanner_scan_loop chunk_tuple_timepoint_filter chunk_tuple_found
        ctx l).chunk =
      (match l.find? (fun t => tuple_contains t ctx.timepoint) with
       | some t => some (chunk_row_create t.id ctx.partition_id
                           (coerced_start t) (coerced_end t))
       | none => ctx.chunk) ∧
    (scanner_scan_loop chunk_tuple_timepoint_filter chunk_tuple_found
        ctx l).rows_materialized =
      ctx.rows_materialized +
        (if (l.find? (fun t => tuple_contains t ctx.timepoint)).isSome
         then 1 else 0) := by
  induction l generalizing ctx with
  | nil => simp [scanner_scan_loop]
  | cons t rest ih =>
    unfold scanner_scan_loop
    rw [filter_characterization]
    cases hc : tuple_contains t ctx.timepoint with
    | true =>
      simp [hc, chunk_tuple_found, chunk_row_create, List.find?_cons]
    | false =>
      have := ih { ctx with starttime := coerced_start t,
                            endtime := coerced_end t }
      simp [hc, List.find?_cons] at this ⊢
      exact this

/-- Shared characterization of `chunk_scan`: the returned row is built
from the first bounds-containing tuple among the partition's tuples in
index order. -/
theorem chunk_scan_eq_first (records : List ChunkTuple)
    (pid tp : Int) (lock : Bool) :
    chunk_scan records pid tp lock =
      ((records.filter fun t => t.partition_id = pid).find?
          (fun t => tuple_contains t tp)).map
        (fun t => chunk_row_create t.id pid (coerced_start t)
                    (coerced_end t)) := by
  have h := scan_loop_characterization
    (records.filter fun t => t.partition_id = pid)
    { chunk := none, partition_id := pid, starttime := 0
      endtime := 0, timepoint := tp, rows_materialized := 0 }
  rw [chunk_scan, chunk_scan_ctx, h.1]
  cases (records.filter fun t => t.partition_id = pid).find?
      (fun t => tuple_contains t tp) <;> rfl

/-- C10: `chunk_scan` is an index scan keyed only on the partition id over
the records in partition-time index order; it returns the row built from
the first tuple (in that order, among the partition's tuples) whose
bounds contain the timepoint, and it materializes at most one chunk row
per scan (the found callback ends the scan). -/
theorem chunk_scan_first_match (records : List ChunkTuple)
    (pid tp : Int) (lock : Bool) :
    chunk_scan records pid tp lock =
      ((records.filter fun t => t.partition_id = pid).find?
          (fun t => tuple_contains t tp)).map
        (fun t => chunk_row_create t.id pid (coerced_start t)
                    (coerced_end t)) ∧
    (chunk_scan_ctx records pid tp lock).rows_materialized ≤ 1 := by
  have h := scan_loop_characterization
    (records.filter fun t => t.partition_id = pid)
    { chunk := none, partition_id := pid, starttime := 0
      endtime := 0, timepoint := tp, rows_materialized := 0 }
  constructor
  · rw [chunk_scan, chunk_scan_ctx, h.1]
    cases (records.filter fun t => t.partition_id = pid).find?
        (fun t => tuple_contains t tp) <;> rfl
  · rw [chunk_scan_ctx, h.2]
    split <;> simp

/-- C6: chunk resolution searches the partition's records for one whose
bounds contain the timepoint (a NULL bound treated as −∞/+∞); if one
exists, the result is built from such a record's persisted id and bounds,
and otherwise the new chunk record produced by `chunk_row_insert_new`
(modelled from the spec: it covers the timepoint in the partition) is
returned. -/
theorem resolve_chunk_found_or_create (new_chunk : Int → Int → ChunkRow)
    (records : List ChunkTuple) (pid tp : Int) (lock : Bool)
    (hnew : (new_chunk pid tp).partition_id = pid ∧
            (new_chunk pid tp).start_time ≤ tp ∧
            tp ≤ (new_chunk pid tp).end_time) :
    ((∃ t ∈ records, t.partition_id = pid ∧ tuple_contains t tp) →
      ∃ t ∈ records, t.partition_id = pid ∧ tuple_contains t tp ∧
        resolve_chunk new_chunk records pid tp lock =
          chunk_row_create t.id pid (coerced_start t) (coerced_end t)) ∧
    ((∀ t ∈ records, t.partition_id = pid → tuple_contains t tp = false) →
      resolve_chunk new_chunk records pid tp lock = new_chunk pid tp ∧
      (resolve_chunk new_chunk records pid tp lock).partition_id = pid ∧
      (resolve_chunk new_chunk records pid tp lock).start_time ≤ tp ∧
      tp ≤ (resolve_chunk new_chunk records pid tp lock).end_time) := by
  have hscan := chunk_scan_eq_first records pid tp lock
  constructor
  · rintro ⟨t, ht, hp, hc⟩
    have hmem : t ∈ records.filter fun t => t.partition_id = pid := by
      simp [List.mem_filter, ht, hp]
    have hsome : ((records.filter fun t => t.partition_id = pid).find?
        (fun t => tuple_contains t tp)).isSome := by
      rw [List.find?_isSome]
      exact ⟨t, hmem, hc⟩
    obtain ⟨u, hu⟩ := Option.isSome_iff_exists.mp hsome
    have humem := List.mem_of_find?_eq_some hu
    have hucont := List.find?_some hu
    refine ⟨u, (List.mem_filter.mp humem).1, ?_, hucont, ?_⟩
    · have := (List.mem_filter.mp humem).2
      simpa using this
    · rw [resolve_chunk, hscan, hu]
      rfl
  · intro hall
    have hnone : (records.filter fun t => t.partition_id = pid).find?
        (fun t => tuple_contains t tp) = none := by
      rw [List.find?_eq_none]
      intro x hx
      have hx' := List.mem_filter.mp hx
      have : x.partition_id = pid := by simpa using hx'.2
      simp [hall x hx'.1 this]
    have hres : resolve_chunk new_chunk records pid tp lock =
        new_chunk pid tp := by
      rw [resolve_chunk, hscan, hnone]
      rfl
    rw [hres]
    exact ⟨rfl, hnew.1, hnew.2.1, hnew.2.2⟩

/-- Fixture: persisted chunk records in partition 3, in partition-time
index order: chunk 1 over `[0,10]` and chunk 2 over `[11, +∞)`. -/
def sampleRecords : List ChunkTuple :=
  [{ id := 1, partition_id := 3, start_time := some 0, end_time := some 10 },
   { id := 2, partition_id := 3, start_time := some 11, end_time := none }]

/-- Fixture: a stand-in for `chunk_row_insert_new` creating a fresh chunk
record (id 99) whose bounds are exactly the timepoint. -/
def sampleNewChunk : Int → Int → ChunkRow :=
  fun p t => { id := 99, partition_id := p, start_time := t, end_time := t }

/-- Witness for C6: partition 3 and timepoint 12 fall inside chunk 2's
half-open bounds, so resolution returns chunk 2 with its persisted id and
coerced bounds. -/
theorem resolve_chunk_found_or_create_witness :
    ((∃ t ∈ sampleRecords, t.partition_id = 3 ∧ tuple_contains t 12) →
      ∃ t ∈ sampleRecords, t.partition_id = 3 ∧ tuple_contains t 12 ∧
        resolve_chunk sampleNewChunk sampleRecords 3 12 true =
          chunk_row_create t.id 3 (coerced_start t) (coerced_end t)) ∧
    ((∀ t ∈ sampleRecords, t.partition_id = 3 → tuple_contains t 12 = false) →
      resolve_chunk sampleNewChunk sampleRecords 3 12 true =
        sampleNewChunk 3 12 ∧
      (resolve_chunk sampleNewChunk sampleRecords 3 12 true).partition_id = 3 ∧
      (resolve_chunk sampleNewChunk sampleRecords 3 12 true).start_time ≤ 12 ∧
      (12 : Int) ≤ (resolve_chunk sampleNewChunk sampleRecords 3 12 true).end_time) :=
  resolve_chunk_found_or_create sampleNewChunk sampleRecords 3 12 true
    (by decide)

/-! ### C7: bulk invalidation -/

theorem release_injective : Function.Injective CacheEvent.release := by
  intro a b h
  simpa using h

/-- C7: bulk invalidation releases every cached compiled plan handle
exactly once, all releases happening before the entries are discarded
(and before the storage is reinitialized); afterwards the cache holds no
entries, so a fetch for any chunk id misses and — when compilation
succeeds — builds and stores a fresh plan. -/
theorem cache_invalidate_spec (st : CacheState)
    (hnodup : (st.entries.map fun e => e.move_from_copyt_plan).Nodup)
    (hhook : st.post_invalidate_hook = true) :
    (cache_invalidate st).2 =
      (st.entries.map fun e => CacheEvent.release e.move_from_copyt_plan)
        ++ [CacheEvent.discard, CacheEvent.reinit] ∧
    (∀ e ∈ st.entries,
      (cache_invalidate st).2.count
        (CacheEvent.release e.move_from_copyt_plan) = 1) ∧
    (cache_invalidate st).1.entries = [] ∧
    (cache_invalidate st).1.released =
      st.released ++ st.entries.map (fun e => e.move_from_copyt_plan) ∧
    (∀ env ctx, env.prepare_ok (get_copy_table_insert_sql env ctx) = true →
      cache_fetch env (cache_invalidate st).1 ctx =
        ({ (cache_invalidate st).1 with
            next_plan := (cache_invalidate st).1.next_plan + 1
            entries := [{ chunk_id := ctx.chunk_id
                          start_time := ctx.chunk_start_time
                          end_time := ctx.chunk_end_time
                          move_from_copyt_plan :=
                            (cache_invalidate st).1.next_plan }] },
         .ok { chunk_id := ctx.chunk_id
               start_time := ctx.chunk_start_time
               end_time := ctx.chunk_end_time
               move_from_copyt_plan := (cache_invalidate st).1.next_plan })) := by
  have hevs : (cache_invalidate st).2 =
      (st.entries.map fun e => CacheEvent.release e.move_from_copyt_plan)
        ++ [CacheEvent.discard, CacheEvent.reinit] := by
    unfold cache_invalidate chunk_insert_plan_cache_pre_invalidate
    simp [hhook]
  refine ⟨hevs, ?_, rfl, rfl, ?_⟩
  · intro e he
    rw [hevs, List.count_append]
    have hmap : (st.entries.map fun e => CacheEvent.release e.move_from_copyt_plan)
        = (st.entries.map fun e => e.move_from_copyt_plan).map
            CacheEvent.release := by
      rw [List.map_map]
      rfl
    rw [hmap, List.count_map_of_injective _ _ release_injective,
        List.count_eq_one_of_mem hnodup (List.mem_map_of_mem _ he)]
    rfl
  · intro env ctx hok
    unfold cache_fetch
    have hfind : ((cache_invalidate st).1.entries.find?
        (fun e => e.chunk_id = ctx.chunk_id)) = none := rfl
    simp only [hfind]
    unfold chunk_insert_plan_cache_create_entry
    simp [hok]
    rfl

/-- Witness for C7: invalidating the one-entry fixture cache releases
plan handle 5 exactly once before discarding, and a subsequent fetch for
chunk 1 misses and stores a freshly compiled plan (handle 6). -/
theorem cache_invalidate_spec_witness :
    (cache_invalidate sampleState).2 =
      (sampleState.entries.map
        fun e => CacheEvent.release e.move_from_copyt_plan)
        ++ [CacheEvent.discard, CacheEvent.reinit] ∧
    (∀ e ∈ sampleState.entries,
      (cache_invalidate sampleState).2.count
        (CacheEvent.release e.move_from_copyt_plan) = 1) ∧
    (cache_invalidate sampleState).1.entries = [] ∧
    (cache_invalidate sampleState).1.released =
      sampleState.released ++ sampleState.entries.map
        (fun e => e.move_from_copyt_plan) ∧
    (∀ env ctx, env.prepare_ok (get_copy_table_insert_sql env ctx) = true →
      cache_fetch env (cache_invalidate sampleState).1 ctx =
        ({ (cache_invalidate sampleState).1 with
            next_plan := (cache_invalidate sampleState).1.next_plan + 1
            entries := [{ chunk_id := ctx.chunk_id
                          start_time := ctx.chunk_start_time
                          end_time := ctx.chunk_end_time
                          move_from_copyt_plan :=
                            (cache_invalidate sampleState).1.next_plan }] },
         .ok { chunk_id := ctx.chunk_id
               start_time := ctx.chunk_start_time
               end_time := ctx.chunk_end_time
               move_from_copyt_plan :=
                 (cache_invalidate sampleState).1.next_plan })) :=
  cache_invalidate_spec sampleState (by decide) (by decide)

/-! ### C8: failure during build or rebuild -/

/-- C8 (amended): if plan compilation fails during a first build, the
cache state is unchanged — no entry is stored; if it fails during a
rebuild of a stale entry, the entry's stored fields (bounds and plan
handle) are left in place, but the previously compiled plan has already
been released before the failed compilation, so the old entry is not
left untouched. -/
theorem build_failure_no_partial_entry (env : Env) (st : CacheState)
    (ctx : ChunkCacheQueryCtx)
    (hfail : env.prepare_ok (get_copy_table_insert_sql env ctx) = false) :
    (st.entries.find? (fun e => e.chunk_id = ctx.chunk_id) = none →
      cache_fetch env st ctx = (st, .error ())) ∧
    (∀ pe, st.entries.find? (fun e => e.chunk_id = ctx.chunk_id) = some pe →
      ¬(pe.start_time = ctx.chunk_start_time ∧
        pe.end_time = ctx.chunk_end_time) →
      cache_fetch env st ctx =
        ({ st with released := st.released ++ [pe.move_from_copyt_plan] },
         .error ())) := by
  constructor
  · intro hnone
    unfold cache_fetch
    simp only [hnone]
    unfold chunk_insert_plan_cache_create_entry
    simp [hfail]
  · intro pe hsome hne
    unfold cache_fetch
    simp only [hsome]
    unfold chunk_insert_plan_cache_update_entry
    rw [if_neg hne]
    simp [hfail]

/-- Witness for C8's amended theorem: the always-failing compiler over
the one-entry fixture cache, fetching chunk 1 with changed bounds
`(5, 15)`. -/
theorem build_failure_no_partial_entry_witness :
    (sampleState.entries.find?
        (fun e => e.chunk_id = (sampleCtx 5 15).chunk_id) = none →
      cache_fetch failEnv sampleState (sampleCtx 5 15) =
        (sampleState, .error ())) ∧
    (∀ pe, sampleState.entries.find?
        (fun e => e.chunk_id = (sampleCtx 5 15).chunk_id) = some pe →
      ¬(pe.start_time = (sampleCtx 5 15).chunk_start_time ∧
        pe.end_time = (sampleCtx 5 15).chunk_end_time) →
      cache_fetch failEnv sampleState (sampleCtx 5 15) =
        ({ sampleState with
            released := sampleState.released ++ [pe.move_from_copyt_plan] },
         .error ())) :=
  build_failure_no_partial_entry failEnv sampleState (sampleCtx 5 15) rfl

/-- C8 counterexample: at a concrete input — entry for chunk 1 cached
with bounds `(0, 10)` and plan handle 5, rebuild requested with bounds
`(5, 15)`, compilation failing — the fetch fails, yet the previously
compiled plan handle 5 has been released (it is in the release log,
which was empty before), so the previous entry including its previously
compiled plan is not left untouched as the claim states. -/
theorem rebuild_failure_releases_old_plan :
    (cache_fetch failEnv sampleState (sampleCtx 5 15)).2 = .error () ∧
    (cache_fetch failEnv sampleState (sampleCtx 5 15)).1.released = [5] ∧
    sampleState.released = [] ∧
    (cache_fetch failEnv sampleState (sampleCtx 5 15)).1.entries =
      [sampleEntry] :=
  ⟨rfl, rfl, rfl, rfl⟩

/-! ### C9: shutdown -/

/-- C9: shutdown clears the reinitialization hook before invalidating,
so its event trace is exactly the per-entry plan releases followed by the
storage discard with no reinitialization; the resulting cache is empty
with the hook disabled, and a further run of the invalidation path on
the shut-down cache releases nothing and never reinitializes the freed
storage. -/
theorem chunk_cache_fini_spec (st : CacheState) :
    (chunk_cache_fini st).2 =
      (st.entries.map fun e => CacheEvent.release e.move_from_copyt_plan)
        ++ [CacheEvent.discard] ∧
    CacheEvent.reinit ∉ (chunk_cache_fini st).2 ∧
    (chunk_cache_fini st).1.entries = [] ∧
    (chunk_cache_fini st).1.released =
      st.released ++ st.entries.map (fun e => e.move_from_copyt_plan) ∧
    (chunk_cache_fini st).1.post_invalidate_hook = false ∧
    cache_invalidate (chunk_cache_fini st).1 =
      ((chunk_cache_fini st).1, [CacheEvent.discard]) := by
  have hevs : (chunk_cache_fini st).2 =
      (st.entries.map fun e => CacheEvent.release e.move_from_copyt_plan)
        ++ [CacheEvent.discard] := by
    unfold chunk_cache_fini cache_invalidate
      chunk_insert_plan_cache_pre_invalidate
    simp
  refine ⟨hevs, ?_, rfl, rfl, rfl, ?_⟩
  · rw [hevs]
    simp
  · unfold chunk_cache_fini cache_invalidate
      chunk_insert_plan_cache_pre_invalidate
    simp

end ChunkCache
